import Mathlib

/-!
Shallow embedding of the field-lifecycle state machine of
src/src/BaseField.js (class BaseField) from the
matomo-form-analytics-custom-field-tracker repository.

Timestamps are integers (JavaScript millisecond clock values, Date.now()).
Each event handler takes the current clock value explicitly.  Nullable
JavaScript fields become Option; JavaScript truthiness of a nullable
number (null/undefined and 0 are falsy) is the function intTruthy below,
and of a nullable string (null/undefined and the empty string are falsy)
is strTruthy.  Calls into the host tracker object that carry no state we
model (setEngagedWithForm, trackFieldUpdate, scheduleSendUpdate) are
recorded in a ghost notification log.  The host tracker's three mutable
string fields are modelled in TrackerState.  The resource-cleanup side of
the class (destroy, listener and timer bookkeeping) is modelled separately
below in Resources/destroy, since destroy nulls the tracker reference and
the live event machine assumes a non-destroyed field.
-/

/-- JavaScript truthiness of a nullable number: null/undefined and 0 are falsy. -/
def intTruthy : Option Int → Bool
  | none => false
  | some v => v != 0

/-- JavaScript truthiness of a nullable string: null/undefined and the empty string are falsy. -/
def strTruthy : Option String → Bool
  | none => false
  | some v => v != ""

/-- Host-notification calls made by the field, recorded as a ghost log. -/
inductive Notif where
  | setEngagedWithForm
  | trackFieldUpdate
  | scheduleSendUpdate
  deriving DecidableEq, Repr

/-- The host tracker's mutable string fields consumed by BaseField. -/
structure TrackerState where
  lastFocusedFieldName : Option String
  entryFieldName : Option String
  exitFieldName : Option String
  deriving DecidableEq, Repr

/-- The metric and flag attributes of a live BaseField instance
(constructor lines 38-66 of src/src/BaseField.js), together with the
host tracker it mutates and the ghost notification log. -/
structure FieldState where
  discoveredDate : Int
  timespent : Int
  hesitationtime : Int
  fieldName : String
  fieldType : String
  category : String
  startFocus : Option Int
  timeLastChange : Option Int
  numChanges : Nat
  numFocus : Nat
  numDeletes : Nat
  numCursor : Nat
  canCountChange : Bool
  isFocusedCausedAuto : Bool
  hasChangedValueSinceFocus : Bool
  firstInteractionTime : Option Int
  delayedBlurTimer : Option Nat
  timers : List Nat
  tracker : TrackerState
  notifs : List Notif
  deriving DecidableEq, Repr

/-- A host tracker that has seen no field activity yet. -/
def freshTracker : TrackerState :=
  { lastFocusedFieldName := none, entryFieldName := none, exitFieldName := none }

/-- Constructor defaults of BaseField (lines 38-66). -/
def mkField (tracker : TrackerState) (fieldName fieldType category : String)
    (discoveredAt : Int) : FieldState :=
  { discoveredDate := discoveredAt
    timespent := 0
    hesitationtime := 0
    fieldName := fieldName
    fieldType := fieldType
    category := category
    startFocus := none
    timeLastChange := none
    numChanges := 0
    numFocus := 0
    numDeletes := 0
    numCursor := 0
    canCountChange := true
    isFocusedCausedAuto := false
    hasChangedValueSinceFocus := false
    firstInteractionTime := none
    delayedBlurTimer := none
    timers := []
    tracker := tracker
    notifs := [] }

/-- BaseField.onFocus (lines 340-355). -/
def onFocus (s : FieldState) (now : Int) : FieldState :=
  let s1 := { s with startFocus := some now }
  let isNewField := some s1.fieldName != s1.tracker.lastFocusedFieldName
  let s2 :=
    if isNewField && !s1.isFocusedCausedAuto then
      { s1 with numFocus := s1.numFocus + 1
                tracker := { s1.tracker with exitFieldName := some s1.fieldName }
                notifs := s1.notifs ++
                  [Notif.setEngagedWithForm, Notif.trackFieldUpdate, Notif.scheduleSendUpdate] }
    else s1
  { s2 with tracker := { s2.tracker with lastFocusedFieldName := some s2.fieldName }
            canCountChange := true }

/-- BaseField.onBlur (lines 361-396). -/
def onBlur (s : FieldState) (now : Int) : FieldState :=
  if !intTruthy s.startFocus then s
  else if intTruthy s.firstInteractionTime && s.hasChangedValueSinceFocus then
    { s with timespent := s.timespent + (now - s.firstInteractionTime.getD 0)
             firstInteractionTime := none
             timeLastChange := none
             startFocus := none }
  else if s.hasChangedValueSinceFocus then
    let s1 :=
      if intTruthy s.timeLastChange && intTruthy s.startFocus then
        { s with timespent := s.timespent + (s.timeLastChange.getD 0 - s.startFocus.getD 0) }
      else s
    { s1 with timeLastChange := none, startFocus := none }
  else
    let s1 :=
      if !s.isFocusedCausedAuto then
        { s with timespent := s.timespent + (now - s.startFocus.getD 0)
                 hesitationtime :=
                   if s.numChanges = 0 then
                     s.hesitationtime + (now - s.startFocus.getD 0)
                   else s.hesitationtime
                 notifs := s.notifs ++ [Notif.setEngagedWithForm, Notif.trackFieldUpdate] }
      else s
    { s1 with startFocus := none }

/-- Body of BaseField.onChange after the focus-session guard
(lines 411-428): runs when focus was auto-induced or a focus session is
open (startFocus truthy).  timeLastChange has already been set by the
caller, so the JS reads of this.timeLastChange use that value. -/
def changeBody (s : FieldState) : FieldState :=
  let s1 := { s with isFocusedCausedAuto := false, hasChangedValueSinceFocus := true }
  let s2 :=
    if s1.numChanges = 0 then
      { s1 with hesitationtime :=
          s1.hesitationtime + (s1.timeLastChange.getD 0 - s1.startFocus.getD 0) }
    else s1
  let s3 :=
    if s2.canCountChange then
      { s2 with numChanges := s2.numChanges + 1, canCountChange := false }
    else s2
  let s4 :=
    if strTruthy s3.tracker.entryFieldName then s3
    else { s3 with tracker := { s3.tracker with entryFieldName := some s3.fieldName } }
  { s4 with notifs := s4.notifs ++ [Notif.setEngagedWithForm, Notif.trackFieldUpdate] }

/-- BaseField.onChange (lines 402-429).  Note line 404 sets timeLastChange
BEFORE the early return of lines 407-409. -/
def onChange (s : FieldState) (now : Int) : FieldState :=
  let s1 := { s with timeLastChange := some now }
  if s1.isFocusedCausedAuto then
    changeBody { s1 with startFocus := s1.timeLastChange }
  else if !intTruthy s1.startFocus then s1
  else changeBody s1

/-- BaseField.trackCursorMovement (lines 435-437). -/
def trackCursorMovement (s : FieldState) : FieldState :=
  { s with numCursor := s.numCursor + 1 }

/-- BaseField.trackDeletion (lines 443-445). -/
def trackDeletion (s : FieldState) : FieldState :=
  { s with numDeletes := s.numDeletes + 1 }

/-- BaseField.cancelDelayedBlur (lines 140-146). -/
def cancelDelayedBlur (s : FieldState) : FieldState :=
  match s.delayedBlurTimer with
  | none => s
  | some id => { s with timers := s.timers.erase id, delayedBlurTimer := none }

/-- BaseField.resetOnFormSubmit (lines 270-283).  Note hesitationtime is
not in the reset list. -/
def resetOnFormSubmit (s : FieldState) : FieldState :=
  cancelDelayedBlur
    { s with timespent := 0
             numFocus := 0
             numDeletes := 0
             numCursor := 0
             numChanges := 0
             startFocus := none
             timeLastChange := none
             canCountChange := true
             hasChangedValueSinceFocus := false
             isFocusedCausedAuto := false
             firstInteractionTime := none }

/-- BaseField.getTimeSpent (lines 290-302).  Returns the reported value
together with the possibly mutated state: lines 291-293 assign
timespent = 1 when numChanges is truthy and timespent is falsy. -/
def getTimeSpent (s : FieldState) (now : Int) : Int × FieldState :=
  let s1 := if s.numChanges ≠ 0 ∧ s.timespent = 0 then { s with timespent := 1 } else s
  if !intTruthy s1.startFocus || s1.isFocusedCausedAuto then (s1.timespent, s1)
  else if intTruthy s1.timeLastChange then
    let t := s1.timeLastChange.getD 0 - s1.startFocus.getD 0
    (s1.timespent + (if t > 0 then t else 0), s1)
  else (s1.timespent + (now - s1.startFocus.getD 0), s1)

/-- BaseField.getHesitationTime (lines 309-314); pure. -/
def getHesitationTime (s : FieldState) (now : Int) : Int :=
  if s.numChanges ≠ 0 ∨ !intTruthy s.startFocus ∨ s.isFocusedCausedAuto then
    s.hesitationtime
  else s.hesitationtime + (now - s.startFocus.getD 0)

/-- Wire-format snapshot produced by getTrackingParams. -/
structure TrackingParams where
  fa_fn : String
  fa_ft : String
  fa_fs : Int
  fa_fb : Nat
  fa_fts : Int
  fa_fht : Int
  fa_ff : Nat
  fa_fch : Nat
  fa_fd : Nat
  fa_fcu : Nat
  deriving DecidableEq, Repr

/-- BaseField.getTrackingParams (lines 321-334).  getFieldSize and
isBlank are abstract (implemented by subclasses against the DOM), so
their results are parameters.  Returns the snapshot together with the
state as left by the getTimeSpent call it makes. -/
def getTrackingParams (s : FieldState) (now : Int) (fieldSize : Int) (blank : Bool) :
    TrackingParams × FieldState :=
  let p := getTimeSpent s now
  let s1 := p.2
  ({ fa_fn := s.fieldName
     fa_ft := s.fieldType
     fa_fs := fieldSize
     fa_fb := if blank then 1 else 0
     fa_fts := p.1
     fa_fht := getHesitationTime s1 now
     fa_ff := s1.numFocus
     fa_fch := s1.numChanges
     fa_fd := s1.numDeletes
     fa_fcu := s1.numCursor }, s1)

/-- Synthetic events driving the state machine, each with its clock value
where the handler reads Date.now(). -/
inductive Event where
  | focus (t : Int)
  | change (t : Int)
  | blur (t : Int)
  | cursor
  | deletion
  deriving DecidableEq, Repr

/-- One event dispatch. -/
def step (s : FieldState) : Event → FieldState
  | Event.focus t => onFocus s t
  | Event.change t => onChange s t
  | Event.blur t => onBlur s t
  | Event.cursor => trackCursorMovement s
  | Event.deletion => trackDeletion s

/-- Run a sequence of events in dispatch order. -/
def run (s : FieldState) : List Event → FieldState
  | [] => s
  | e :: es => run (step s e) es

/-- A fresh example field on a fresh tracker, for concrete evaluations. -/
def exF : FieldState := mkField freshTracker "email" "wysiwyg" "FIELD_TEXT" 0

/-!
Resource-cleanup model for BaseField.destroy (lines 452-485).  A listener
registration is identified by the element, event name and handler it was
registered with; timers by their numeric id.  removeEventListener and
clearTimeout/clearInterval act on the browser, outside the class state,
so destroy is modelled with two oracles saying which individual removals
succeed; a failed removal is caught and logged (lines 459-464, 470-475),
never rethrown, and the loop continues with the remaining entries.
-/

/-- One tracked addEventListener registration (the entries of the
_eventListeners map). -/
structure ListenerEntry where
  elemId : Nat
  eventName : String
  handlerId : Nat
  deriving DecidableEq, Repr

/-- Log entry for one cleanup attempt inside destroy: either the removal
succeeded or it threw and was caught and logged. -/
inductive CleanupOutcome where
  | removed (l : ListenerEntry)
  | removeFailed (l : ListenerEntry)
  | cleared (t : Nat)
  | clearFailed (t : Nat)
  deriving DecidableEq, Repr

/-- The fields of BaseField that destroy reads or writes:
_isDestroyed, _eventListeners, _timers, and the references it nulls
(element, nodes, tracker, startFocus, timeLastChange). -/
structure Resources where
  isDestroyed : Bool
  eventListeners : List ListenerEntry
  timers : List Nat
  element : Option Nat
  nodes : Option (List Nat)
  tracker : Option TrackerState
  startFocus : Option Int
  timeLastChange : Option Int
  deriving DecidableEq, Repr

/-- The state every effective destroy call leaves behind: flag set,
collections cleared, references nulled. -/
def destroyedResources : Resources :=
  { isDestroyed := true, eventListeners := [], timers := [], element := none,
    nodes := none, tracker := none, startFocus := none, timeLastChange := none }

/-- BaseField.destroy (lines 452-485).  Guard: returns immediately when
already destroyed.  Otherwise attempts every tracked listener removal and
every timer clear, each individually wrapped in try/catch (the oracles
say which attempts fail; a failure is logged and the iteration
continues), clears both collections, and nulls element, nodes, tracker,
startFocus and timeLastChange.  Returns the new state and the log of
cleanup attempts. -/
def destroy (removeOk : ListenerEntry → Bool) (clearOk : Nat → Bool) (s : Resources) :
    Resources × List CleanupOutcome :=
  if s.isDestroyed then (s, [])
  else
    let removalLog := s.eventListeners.map fun l =>
      if removeOk l then CleanupOutcome.removed l else CleanupOutcome.removeFailed l
    let timerLog := s.timers.map fun t =>
      if clearOk t then CleanupOutcome.cleared t else CleanupOutcome.clearFailed t
    (destroyedResources, removalLog ++ timerLog)


/-!
Helper projection lemmas about onFocus and changeBody, shared by several
claim theorems below.
-/

theorem onFocus_startFocus (s : FieldState) (now : Int) :
    (onFocus s now).startFocus = some now := by
  unfold onFocus
  dsimp only
  all_goals first
  | rfl
  | (split <;> rfl)

theorem onFocus_canCountChange (s : FieldState) (now : Int) :
    (onFocus s now).canCountChange = true := by
  unfold onFocus
  dsimp only
  all_goals first
  | rfl
  | (split <;> rfl)

theorem onFocus_numChanges (s : FieldState) (now : Int) :
    (onFocus s now).numChanges = s.numChanges := by
  unfold onFocus
  dsimp only
  all_goals first
  | rfl
  | (split <;> rfl)

theorem onFocus_auto (s : FieldState) (now : Int) :
    (onFocus s now).isFocusedCausedAuto = s.isFocusedCausedAuto := by
  unfold onFocus
  dsimp only
  all_goals first
  | rfl
  | (split <;> rfl)

theorem onFocus_hasChanged (s : FieldState) (now : Int) :
    (onFocus s now).hasChangedValueSinceFocus = s.hasChangedValueSinceFocus := by
  unfold onFocus
  dsimp only
  all_goals first
  | rfl
  | (split <;> rfl)

theorem onFocus_lastFocused (s : FieldState) (now : Int) :
    (onFocus s now).tracker.lastFocusedFieldName = some s.fieldName := by
  unfold onFocus
  dsimp only
  all_goals first
  | rfl
  | (split <;> rfl)

theorem changeBody_numChanges (s : FieldState) :
    (changeBody s).numChanges = if s.canCountChange then s.numChanges + 1 else s.numChanges := by
  simp only [changeBody]
  split_ifs <;> simp_all

theorem changeBody_canCountChange (s : FieldState) :
    (changeBody s).canCountChange = false := by
  simp only [changeBody]
  split_ifs <;> simp_all

theorem changeBody_startFocus (s : FieldState) :
    (changeBody s).startFocus = s.startFocus := by
  simp only [changeBody]
  split_ifs <;> simp_all

theorem changeBody_auto (s : FieldState) :
    (changeBody s).isFocusedCausedAuto = false := by
  simp only [changeBody]
  split_ifs <;> simp_all

theorem changeBody_hasChanged (s : FieldState) :
    (changeBody s).hasChangedValueSinceFocus = true := by
  simp only [changeBody]
  split_ifs <;> simp_all

theorem changeBody_hesitation (s : FieldState) :
    (changeBody s).hesitationtime =
      if s.numChanges = 0 then
        s.hesitationtime + (s.timeLastChange.getD 0 - s.startFocus.getD 0)
      else s.hesitationtime := by
  simp only [changeBody]
  split_ifs <;> simp_all

theorem onFocus_fieldName (s : FieldState) (now : Int) :
    (onFocus s now).fieldName = s.fieldName := by
  unfold onFocus
  dsimp only
  all_goals first
  | rfl
  | (split <;> rfl)

theorem onFocus_numFocus (s : FieldState) (now : Int) :
    (onFocus s now).numFocus =
      if (some s.fieldName != s.tracker.lastFocusedFieldName) && !s.isFocusedCausedAuto then
        s.numFocus + 1
      else s.numFocus := by
  simp only [onFocus]
  split_ifs <;> simp_all

theorem onFocus_notifs (s : FieldState) (now : Int) :
    (onFocus s now).notifs =
      if (some s.fieldName != s.tracker.lastFocusedFieldName) && !s.isFocusedCausedAuto then
        s.notifs ++ [Notif.setEngagedWithForm, Notif.trackFieldUpdate, Notif.scheduleSendUpdate]
      else s.notifs := by
  simp only [onFocus]
  split_ifs <;> simp_all

theorem onFocus_exitFieldName (s : FieldState) (now : Int) :
    (onFocus s now).tracker.exitFieldName =
      if (some s.fieldName != s.tracker.lastFocusedFieldName) && !s.isFocusedCausedAuto then
        some s.fieldName
      else s.tracker.exitFieldName := by
  simp only [onFocus]
  split_ifs <;> simp_all

/-- C10: trackDeletion and trackCursorMovement are unconditional: in every
field state (startFocus open or not, auto-focused or not) trackDeletion
increments numDeletes by exactly 1, trackCursorMovement increments
numCursor by exactly 1, and neither touches any other attribute, the
tracker, or the notification log (the record-update equalities say
exactly that). -/
theorem c10_cursor_deletion_unconditional : ∀ s : FieldState,
    trackDeletion s = { s with numDeletes := s.numDeletes + 1 } ∧
    trackCursorMovement s = { s with numCursor := s.numCursor + 1 } :=
  fun _ => ⟨rfl, rfl⟩

/-- C2 fails on the code: with strictly increasing positive timestamps and
no reset, the event sequence focus, change, blur, then a change arriving
with no open focus session (which still records timeLastChange), then
focus and blur again, drives timespent from 10 down to -90: it both
decreases and goes negative, because onBlur adds the unguarded delta
timeLastChange - startFocus with a timeLastChange stamped before the
session opened. -/
theorem c2_monotonicity_failure :
    (run exF [Event.focus 100, Event.change 110, Event.blur 120]).timespent = 10 ∧
    (run exF [Event.focus 100, Event.change 110, Event.blur 120, Event.change 500,
      Event.focus 600, Event.blur 1000]).timespent = -90 := by
  decide

/-- C1 fails as stated: a focus, change, blur cycle of zero duration
leaves numChanges = 1 with timespent = 0, and getTrackingParams (through
getTimeSpent, lines 291-293) then mutates timespent to 1. -/
theorem c1_counterexample :
    (run exF [Event.focus 100, Event.change 100, Event.blur 100]).timespent = 0 ∧
    ((getTrackingParams (run exF [Event.focus 100, Event.change 100, Event.blur 100])
        200 3 false).2).timespent = 1 ∧
    (getTrackingParams (run exF [Event.focus 100, Event.change 100, Event.blur 100])
        200 3 false).2 ≠
      run exF [Event.focus 100, Event.change 100, Event.blur 100] := by
  decide

/-- C1 amended: getTrackingParams leaves every field attribute unchanged
except in the single flooring case of getTimeSpent: when numChanges is
nonzero and timespent is 0 it sets timespent to 1; in every other state
the call is side-effect-free. -/
theorem c1_getTrackingParams_effect : ∀ (s : FieldState) (now fieldSize : Int) (blank : Bool),
    (getTrackingParams s now fieldSize blank).2 =
      if s.numChanges ≠ 0 ∧ s.timespent = 0 then { s with timespent := 1 } else s := by
  intro s now fieldSize blank
  simp only [getTrackingParams, getTimeSpent]
  split_ifs <;> rfl

/-- C3 fails as stated: on a fresh field (no focus session, auto flag
clear) onChange at time 5 still mutates timeLastChange, which line 404
sets before the early return of lines 407-409. -/
theorem c3_counterexample :
    exF.startFocus = none ∧ exF.isFocusedCausedAuto = false ∧ exF.timeLastChange = none ∧
    (onChange exF 5).timeLastChange = some 5 ∧ onChange exF 5 ≠ exF := by
  decide

/-- C3 amended: onChange with no open focus session and the auto flag
clear sets timeLastChange to the current time and mutates nothing else:
every other attribute, the tracker fields and the notification log keep
their values. -/
theorem c3_no_session_change (s : FieldState) (now : Int)
    (h1 : s.startFocus = none) (h2 : s.isFocusedCausedAuto = false) :
    onChange s now = { s with timeLastChange := some now } := by
  simp [onChange, h1, h2, intTruthy]

/-- Witness for c3_no_session_change at the fresh example field. -/
theorem c3_no_session_change_witness :
    onChange exF 5 = { exF with timeLastChange := some 5 } :=
  c3_no_session_change exF 5 rfl rfl

/-- C7: resetOnFormSubmit zeroes timespent and the four counters, clears
startFocus, timeLastChange and firstInteractionTime, resets the three
flags, cancels any pending delayed blur, leaves hesitationtime alone, and
a getTrackingParams taken afterwards (from any prior state whatsoever)
reports focus, change, delete and cursor counts of 0 and a time spent of
0. -/
theorem c7_resetOnFormSubmit : ∀ (s : FieldState) (now fieldSize : Int) (blank : Bool),
    (resetOnFormSubmit s).timespent = 0 ∧
    (resetOnFormSubmit s).numFocus = 0 ∧
    (resetOnFormSubmit s).numDeletes = 0 ∧
    (resetOnFormSubmit s).numCursor = 0 ∧
    (resetOnFormSubmit s).numChanges = 0 ∧
    (resetOnFormSubmit s).startFocus = none ∧
    (resetOnFormSubmit s).timeLastChange = none ∧
    (resetOnFormSubmit s).firstInteractionTime = none ∧
    (resetOnFormSubmit s).canCountChange = true ∧
    (resetOnFormSubmit s).hasChangedValueSinceFocus = false ∧
    (resetOnFormSubmit s).isFocusedCausedAuto = false ∧
    (resetOnFormSubmit s).delayedBlurTimer = none ∧
    (resetOnFormSubmit s).hesitationtime = s.hesitationtime ∧
    (getTrackingParams (resetOnFormSubmit s) now fieldSize blank).1.fa_ff = 0 ∧
    (getTrackingParams (resetOnFormSubmit s) now fieldSize blank).1.fa_fch = 0 ∧
    (getTrackingParams (resetOnFormSubmit s) now fieldSize blank).1.fa_fd = 0 ∧
    (getTrackingParams (resetOnFormSubmit s) now fieldSize blank).1.fa_fcu = 0 ∧
    (getTrackingParams (resetOnFormSubmit s) now fieldSize blank).1.fa_fts = 0 := by
  intro s now fieldSize blank
  cases h : s.delayedBlurTimer <;>
    simp [resetOnFormSubmit, cancelDelayedBlur, h, getTrackingParams, getTimeSpent,
      getHesitationTime, intTruthy]

/-- C5: onFocus always records startFocus = now, updates the tracker's
lastFocusedFieldName to this field and resets canCountChange; it
increments numFocus, emits setEngagedWithForm, trackFieldUpdate and
scheduleSendUpdate, and sets the tracker's exitFieldName exactly when the
field name differs from the tracker's previous lastFocusedFieldName and
the focus was not auto-induced; consequently two onFocus calls in a row
on a fresh field leave numFocus = 1. -/
theorem c5_onFocus_contract : ∀ (s : FieldState) (now : Int),
    (onFocus s now).startFocus = some now ∧
    (onFocus s now).tracker.lastFocusedFieldName = some s.fieldName ∧
    (onFocus s now).canCountChange = true ∧
    (if (some s.fieldName != s.tracker.lastFocusedFieldName) && !s.isFocusedCausedAuto then
       (onFocus s now).numFocus = s.numFocus + 1 ∧
       (onFocus s now).notifs = s.notifs ++
         [Notif.setEngagedWithForm, Notif.trackFieldUpdate, Notif.scheduleSendUpdate] ∧
       (onFocus s now).tracker.exitFieldName = some s.fieldName
     else
       (onFocus s now).numFocus = s.numFocus ∧
       (onFocus s now).notifs = s.notifs ∧
       (onFocus s now).tracker.exitFieldName = s.tracker.exitFieldName) ∧
    ∀ (nm ft cat : String) (d t1 t2 : Int),
      (onFocus (onFocus (mkField freshTracker nm ft cat d) t1) t2).numFocus = 1 := by
  intro s now
  refine ⟨onFocus_startFocus s now, onFocus_lastFocused s now, onFocus_canCountChange s now,
    ?_, ?_⟩
  · by_cases h : (some s.fieldName != s.tracker.lastFocusedFieldName) && !s.isFocusedCausedAuto
    · simp only [h, if_true]
      exact ⟨by rw [onFocus_numFocus, if_pos h], by rw [onFocus_notifs, if_pos h],
        by rw [onFocus_exitFieldName, if_pos h]⟩
    · simp only [h, if_false]
      exact ⟨by rw [onFocus_numFocus, if_neg h], by rw [onFocus_notifs, if_neg h],
        by rw [onFocus_exitFieldName, if_neg h]⟩
  · intro nm ft cat d t1 t2
    rw [onFocus_numFocus]
    rw [onFocus_fieldName, onFocus_lastFocused]
    simp [onFocus_numFocus, mkField, freshTracker]

/-- Iterating onChange over a list of timestamps (successive change
events with no intervening focus or blur). -/
def applyChanges (s : FieldState) (ts : List Int) : FieldState :=
  ts.foldl onChange s

/-- After a change has been counted in the current session the gate is
closed: further onChange calls leave numChanges alone and keep the gate
closed, the auto flag clear and the session open. -/
theorem onChange_locked (s : FieldState) (t : Int)
    (hc : s.canCountChange = false) (ha : s.isFocusedCausedAuto = false)
    (hf : intTruthy s.startFocus = true) :
    (onChange s t).numChanges = s.numChanges ∧
    (onChange s t).canCountChange = false ∧
    (onChange s t).isFocusedCausedAuto = false ∧
    intTruthy (onChange s t).startFocus = true := by
  have hb : onChange s t = changeBody { s with timeLastChange := some t } := by
    simp [onChange, ha, hf]
  rw [hb]
  refine ⟨?_, changeBody_canCountChange _, changeBody_auto _, ?_⟩
  · rw [changeBody_numChanges]
    simp [hc]
  · rw [changeBody_startFocus]
    exact hf

/-- A locked session stays locked under any further list of changes. -/
theorem applyChanges_locked (ts : List Int) : ∀ (s : FieldState),
    s.canCountChange = false → s.isFocusedCausedAuto = false →
    intTruthy s.startFocus = true →
    (applyChanges s ts).numChanges = s.numChanges ∧
    (applyChanges s ts).canCountChange = false ∧
    (applyChanges s ts).isFocusedCausedAuto = false ∧
    intTruthy (applyChanges s ts).startFocus = true := by
  induction ts with
  | nil => intro s hc ha hf; exact ⟨rfl, hc, ha, hf⟩
  | cons t ts ih =>
    intro s hc ha hf
    have h1 := onChange_locked s t hc ha hf
    have h2 := ih (onChange s t) h1.2.1 h1.2.2.1 h1.2.2.2
    exact ⟨by simpa [applyChanges] using h2.1.trans h1.1,
      by simpa [applyChanges] using h2.2.1,
      by simpa [applyChanges] using h2.2.2.1,
      by simpa [applyChanges] using h2.2.2.2⟩

/-- The first onChange of a session with the gate open counts exactly one
change and locks the session. -/
theorem onChange_first (s : FieldState) (t : Int) (ht : 0 < t)
    (hc : s.canCountChange = true)
    (hfoc : s.isFocusedCausedAuto = true ∨ intTruthy s.startFocus = true) :
    (onChange s t).numChanges = s.numChanges + 1 ∧
    (onChange s t).canCountChange = false ∧
    (onChange s t).isFocusedCausedAuto = false ∧
    intTruthy (onChange s t).startFocus = true := by
  have htne : t ≠ 0 := by omega
  rcases hfoc with ha | hf
  · have hb : onChange s t =
        changeBody { s with timeLastChange := some t, startFocus := some t } := by
      simp [onChange, ha]
    rw [hb]
    refine ⟨?_, changeBody_canCountChange _, changeBody_auto _, ?_⟩
    · rw [changeBody_numChanges]
      simp [hc]
    · rw [changeBody_startFocus]
      simp [intTruthy, htne]
  · by_cases ha : s.isFocusedCausedAuto
    · have hb : onChange s t =
          changeBody { s with timeLastChange := some t, startFocus := some t } := by
        simp [onChange, ha]
      rw [hb]
      refine ⟨?_, changeBody_canCountChange _, changeBody_auto _, ?_⟩
      · rw [changeBody_numChanges]
        simp [hc]
      · rw [changeBody_startFocus]
        simp [intTruthy, htne]
    · have hb : onChange s t = changeBody { s with timeLastChange := some t } := by
        simp [onChange, ha, hf]
      rw [hb]
      refine ⟨?_, changeBody_canCountChange _, changeBody_auto _, ?_⟩
      · rw [changeBody_numChanges]
        simp [hc]
      · rw [changeBody_startFocus]
        exact hf

/-- C4: in a session just opened by onFocus (which resets the
canCountChange gate and stamps startFocus), any nonempty run of onChange
events before the next blur increases numChanges by exactly one,
whatever state the field was in before the focus (timestamps are positive
as real Date.now() values are). -/
theorem c4_one_change_per_session (s : FieldState) (t0 : Int) (ts : List Int)
    (hne : ts ≠ []) (ht0 : 0 < t0) (hts : ∀ t ∈ ts, 0 < t) :
    (applyChanges (onFocus s t0) ts).numChanges = s.numChanges + 1 := by
  obtain ⟨t1, ts', rfl⟩ : ∃ t1 ts', ts = t1 :: ts' := by
    cases ts with
    | nil => exact absurd rfl hne
    | cons a l => exact ⟨a, l, rfl⟩
  have hfoc : (onFocus s t0).isFocusedCausedAuto = true ∨
      intTruthy (onFocus s t0).startFocus = true := by
    by_cases ha : (onFocus s t0).isFocusedCausedAuto
    · exact Or.inl ha
    · refine Or.inr ?_
      rw [onFocus_startFocus]
      simp [intTruthy]
      omega
  have h1 := onChange_first (onFocus s t0) t1 (hts t1 (by simp))
    (onFocus_canCountChange s t0) hfoc
  have h2 := applyChanges_locked ts' (onChange (onFocus s t0) t1)
    h1.2.1 h1.2.2.1 h1.2.2.2
  have : applyChanges (onFocus s t0) (t1 :: ts') =
      applyChanges (onChange (onFocus s t0) t1) ts' := rfl
  rw [this, h2.1, h1.1, onFocus_numChanges]

/-- Witness for c4_one_change_per_session: two changes inside one fresh
session count exactly one change. -/
theorem c4_witness :
    (applyChanges (onFocus exF 100) [110, 120]).numChanges = exF.numChanges + 1 :=
  c4_one_change_per_session exF 100 [110, 120] (by decide) (by decide)
    (by intro t ht; fin_cases ht <;> decide)

theorem onFocus_hesitation (s : FieldState) (now : Int) :
    (onFocus s now).hesitationtime = s.hesitationtime := by
  unfold onFocus
  dsimp only
  all_goals first
  | rfl
  | (split <;> rfl)

/-- An onChange in an open, not auto-induced session reduces to
changeBody after stamping timeLastChange. -/
theorem onChange_open_eq (s : FieldState) (now : Int) (ha : s.isFocusedCausedAuto = false)
    (hf : intTruthy s.startFocus = true) :
    onChange s now = changeBody { s with timeLastChange := some now } := by
  simp [onChange, ha, hf]

/-- Once a change happened in the session, onBlur leaves hesitationtime
alone (the changed-value branches never touch it). -/
theorem onBlur_hesitation_changed (s : FieldState) (now : Int)
    (h : s.hasChangedValueSinceFocus = true) :
    (onBlur s now).hesitationtime = s.hesitationtime := by
  simp only [onBlur]
  split_ifs <;> simp_all

/-- C6: hesitation accrues only until the first change.  An onChange
processed inside a session (auto-induced or with an open focus) adds the
elapsed time since startFocus exactly when numChanges is 0 (in the
auto-induced case startFocus is restamped to the change time, so the
addition is 0); the changed-value branch of onBlur never touches
hesitationtime; and the concrete fresh-field scenario focus at t0, change
at t0+500, blur at t0+1500 ends with hesitationtime exactly 500. -/
theorem c6_hesitation :
    (∀ (s : FieldState) (now : Int), s.isFocusedCausedAuto = false →
      intTruthy s.startFocus = true →
      (onChange s now).hesitationtime =
        if s.numChanges = 0 then s.hesitationtime + (now - s.startFocus.getD 0)
        else s.hesitationtime) ∧
    (∀ (s : FieldState) (now : Int), s.isFocusedCausedAuto = true →
      (onChange s now).hesitationtime = s.hesitationtime) ∧
    (∀ (s : FieldState) (now : Int), s.hasChangedValueSinceFocus = true →
      (onBlur s now).hesitationtime = s.hesitationtime) ∧
    (∀ t0 : Int, 0 < t0 →
      (run exF [Event.focus t0, Event.change (t0 + 500),
        Event.blur (t0 + 1500)]).hesitationtime = 500) := by
  refine ⟨?_, ?_, ?_, ?_⟩
  · intro s now ha hf
    rw [onChange_open_eq s now ha hf, changeBody_hesitation]
    simp
  · intro s now ha
    have hb : onChange s now =
        changeBody { s with timeLastChange := some now, startFocus := some now } := by
      simp [onChange, ha]
    rw [hb, changeBody_hesitation]
    simp
  · intro s now h
    exact onBlur_hesitation_changed s now h
  · intro t0 ht0
    have h1 : t0 ≠ 0 := by omega
    have hf : intTruthy (onFocus exF t0).startFocus = true := by
      rw [onFocus_startFocus]
      simp [intTruthy, h1]
    have ha : (onFocus exF t0).isFocusedCausedAuto = false := by
      rw [onFocus_auto]
      rfl
    have heq := onChange_open_eq (onFocus exF t0) (t0 + 500) ha hf
    have hch : (onChange (onFocus exF t0) (t0 + 500)).hasChangedValueSinceFocus = true := by
      rw [heq]
      exact changeBody_hasChanged _
    have hhes : (onChange (onFocus exF t0) (t0 + 500)).hesitationtime = 500 := by
      rw [heq, changeBody_hesitation]
      have hn : ({ onFocus exF t0 with
          timeLastChange := some (t0 + 500) } : FieldState).numChanges = 0 := by
        show (onFocus exF t0).numChanges = 0
        rw [onFocus_numChanges]
        rfl
      rw [if_pos hn]
      show (onFocus exF t0).hesitationtime +
        ((t0 + 500) - (onFocus exF t0).startFocus.getD 0) = 500
      rw [onFocus_hesitation, onFocus_startFocus]
      show exF.hesitationtime + ((t0 + 500) - t0) = 500
      have : exF.hesitationtime = 0 := rfl
      rw [this]
      ring
    show (onBlur (onChange (onFocus exF t0) (t0 + 500)) (t0 + 1500)).hesitationtime = 500
    rw [onBlur_hesitation_changed _ _ hch, hhes]

/-- Witness for c6_hesitation, applying each session-scoped part at a
concrete state: a fresh open session, an auto-induced pseudo-session, a
post-change blur, and the concrete scenario at t0 = 100. -/
theorem c6_hesitation_witness :
    ((onChange (onFocus exF 100) 110).hesitationtime =
      if (onFocus exF 100).numChanges = 0
      then (onFocus exF 100).hesitationtime + (110 - (onFocus exF 100).startFocus.getD 0)
      else (onFocus exF 100).hesitationtime) ∧
    (onChange { exF with isFocusedCausedAuto := true } 50).hesitationtime =
      ({ exF with isFocusedCausedAuto := true } : FieldState).hesitationtime ∧
    (onBlur (run exF [Event.focus 100, Event.change 110]) 300).hesitationtime =
      (run exF [Event.focus 100, Event.change 110]).hesitationtime ∧
    (run exF [Event.focus 100, Event.change 600, Event.blur 1600]).hesitationtime = 500 :=
  ⟨c6_hesitation.1 (onFocus exF 100) 110 (by decide) (by decide),
   c6_hesitation.2.1 { exF with isFocusedCausedAuto := true } 50 (by decide),
   c6_hesitation.2.2.1 (run exF [Event.focus 100, Event.change 110]) 300 (by decide),
   c6_hesitation.2.2.2 100 (by decide)⟩

/-- onChange keeps hasChangedValueSinceFocus once it is set. -/
theorem onChange_hasChanged (s : FieldState) (now : Int)
    (h : s.hasChangedValueSinceFocus = true) :
    (onChange s now).hasChangedValueSinceFocus = true := by
  simp only [onChange]
  split_ifs
  · exact changeBody_hasChanged _
  · exact h
  · exact changeBody_hasChanged _

/-- onBlur never writes hasChangedValueSinceFocus. -/
theorem onBlur_hasChanged (s : FieldState) (now : Int) :
    (onBlur s now).hasChangedValueSinceFocus = s.hasChangedValueSinceFocus := by
  simp only [onBlur]
  split_ifs <;> rfl

/-- C9: onBlur never clears hasChangedValueSinceFocus, the flag survives
every event (only resetOnFormSubmit clears it), and once it is set a
focus session that ends in onBlur with no pending change (timeLastChange
null, no first-interaction stamp) takes the changed-value branch: it adds
nothing to timespent or hesitationtime and performs no host
notification. -/
theorem c9_hasChanged_persists :
    (∀ (s : FieldState) (now : Int),
      (onBlur s now).hasChangedValueSinceFocus = s.hasChangedValueSinceFocus) ∧
    (∀ (s : FieldState) (e : Event), s.hasChangedValueSinceFocus = true →
      (step s e).hasChangedValueSinceFocus = true) ∧
    (∀ (s : FieldState) (now : Int),
      s.hasChangedValueSinceFocus = true → s.timeLastChange = none →
      s.firstInteractionTime = none →
      (onBlur s now).timespent = s.timespent ∧
      (onBlur s now).hesitationtime = s.hesitationtime ∧
      (onBlur s now).notifs = s.notifs) := by
  refine ⟨onBlur_hasChanged, ?_, ?_⟩
  · intro s e h
    cases e with
    | focus t => rw [show step s (Event.focus t) = onFocus s t from rfl,
        onFocus_hasChanged]; exact h
    | change t => exact onChange_hasChanged s t h
    | blur t => rw [show step s (Event.blur t) = onBlur s t from rfl,
        onBlur_hasChanged]; exact h
    | cursor => exact h
    | deletion => exact h
  · intro s now h htlc hfit
    simp only [onBlur]
    split_ifs <;> simp_all [intTruthy]

/-- Witness for c9_hasChanged_persists: after a completed
focus-change-blur cycle the flag is still set, and a second session that
blurs with no new change leaves timespent, hesitationtime and the
notification log untouched. -/
theorem c9_hasChanged_persists_witness :
    (step (run exF [Event.focus 100, Event.change 110, Event.blur 120])
      Event.cursor).hasChangedValueSinceFocus = true ∧
    (onBlur (onFocus (run exF [Event.focus 100, Event.change 110, Event.blur 120]) 600)
        1000).timespent =
      (onFocus (run exF [Event.focus 100, Event.change 110, Event.blur 120]) 600).timespent ∧
    (onBlur (onFocus (run exF [Event.focus 100, Event.change 110, Event.blur 120]) 600)
        1000).notifs =
      (onFocus (run exF [Event.focus 100, Event.change 110, Event.blur 120]) 600).notifs :=
  ⟨c9_hasChanged_persists.2.1 _ Event.cursor (by decide),
   (c9_hasChanged_persists.2.2 _ 1000 (by decide) (by decide) (by decide)).1,
   (c9_hasChanged_persists.2.2 _ 1000 (by decide) (by decide) (by decide)).2.2⟩

/-- A destroy call on an already-destroyed instance is a complete no-op
(lines 453). -/
theorem destroy_already_destroyed (removeOk : ListenerEntry → Bool) (clearOk : Nat → Bool)
    (s : Resources) (h : s.isDestroyed = true) :
    destroy removeOk clearOk s = (s, []) := by
  simp [destroy, h]

/-- Any destroy call leaves the destroyed flag set. -/
theorem destroy_sets_flag (removeOk : ListenerEntry → Bool) (clearOk : Nat → Bool)
    (s : Resources) : ((destroy removeOk clearOk s).1).isDestroyed = true := by
  by_cases h : s.isDestroyed <;> simp [destroy, h, destroyedResources]

/-- C8: destroy is idempotent: from any state, any number of calls at or
past the first leaves the identical final state, every call after the
first is a no-op that performs no further cleanup, the resulting state
does not depend on which individual removals fail, and on the first
effective call every tracked listener and timer is attempted exactly once
with failures logged rather than rethrown, after which the collections
are cleared and element, nodes, tracker, startFocus and timeLastChange
are nulled. -/
theorem c8_destroy_idempotent : ∀ (removeOk : ListenerEntry → Bool) (clearOk : Nat → Bool)
    (s : Resources) (n : Nat),
    (fun x => (destroy removeOk clearOk x).1)^[n] ((destroy removeOk clearOk s).1) =
      (destroy removeOk clearOk s).1 ∧
    destroy removeOk clearOk ((destroy removeOk clearOk s).1) =
      ((destroy removeOk clearOk s).1, []) ∧
    (∀ (removeOk2 : ListenerEntry → Bool) (clearOk2 : Nat → Bool),
      (destroy removeOk2 clearOk2 s).1 = (destroy removeOk clearOk s).1) ∧
    (s.isDestroyed = false →
      (destroy removeOk clearOk s).1 = destroyedResources ∧
      (destroy removeOk clearOk s).2 =
        (s.eventListeners.map fun l =>
          if removeOk l then CleanupOutcome.removed l else CleanupOutcome.removeFailed l) ++
        (s.timers.map fun t =>
          if clearOk t then CleanupOutcome.cleared t else CleanupOutcome.clearFailed t)) := by
  intro removeOk clearOk s n
  have hone := destroy_sets_flag removeOk clearOk s
  have hfix := destroy_already_destroyed removeOk clearOk _ hone
  refine ⟨Function.iterate_fixed (by simp [hfix]) n, hfix, ?_, ?_⟩
  · intro removeOk2 clearOk2
    by_cases h : s.isDestroyed <;> simp [destroy, h]
  · intro h
    constructor <;> simp [destroy, h]

/-- A live field instance with two tracked listeners and one timer, for
exercising destroy concretely. -/
def exResources : Resources :=
  { isDestroyed := false
    eventListeners := [⟨1, "focus", 1⟩, ⟨1, "blur", 2⟩]
    timers := [7]
    element := some 1
    nodes := some [1]
    tracker := some freshTracker
    startFocus := some 100
    timeLastChange := some 200 }

/-- Witness for c8_destroy_idempotent: even when every listener removal
fails, a first destroy of a live instance reaches the fully cleaned
state and three further calls change nothing. -/
theorem c8_destroy_idempotent_witness :
    (fun x => (destroy (fun _ => false) (fun _ => true) x).1)^[3]
        ((destroy (fun _ => false) (fun _ => true) exResources).1) =
      (destroy (fun _ => false) (fun _ => true) exResources).1 ∧
    (destroy (fun _ => false) (fun _ => true) exResources).1 = destroyedResources :=
  ⟨(c8_destroy_idempotent (fun _ => false) (fun _ => true) exResources 3).1,
   ((c8_destroy_idempotent (fun _ => false) (fun _ => true) exResources 3).2.2.2 rfl).1⟩
